import Mathlib

/-!
Verification development for the AutoCloud deployment orchestrator.

The definitions below are a shallow embedding of the two server modules that
implement the orchestrator:

* `src/server/azure-deploy.ts` — the deployment job registry (`activeDeployments`),
  the update appender (`addDeploymentUpdate`), the process-execution layer
  (`executeCommand`), the tool probes, the Azure CLI login flow, and the
  background pipeline (`deployToAzure` / `deployTerraform`).
* `src/server/azure.ts` — the SDK-based credential gate (`authenticateWithAzure`)
  and the plan/apply pipeline (`runTerraformPlan` / `applyTerraformPlan`).

Timestamps (`Date.now()` / `new Date().toISOString()`) are modelled by an
arbitrary time source `tsrc : Nat → Nat` read at successive ticks; external
effects (child processes, the filesystem, JSON parsing, the Azure SDK) are
modelled by explicit environment records supplying each call's outcome.
-/

namespace AutoCloud

/-- Deployment status literals of `azure-deploy.ts` (the union type used by both
`DeploymentUpdate.status` and `DeploymentStatus.status`). -/
inductive Status
  | initializing
  | authenticating
  | preparing
  | planning
  | applying
  | completed
  | failed
deriving DecidableEq, Repr

/-- Rendering of a status literal, used when building the `logs` text buffer. -/
def statusText : Status → String
  | .initializing => "initializing"
  | .authenticating => "authenticating"
  | .preparing => "preparing"
  | .planning => "planning"
  | .applying => "applying"
  | .completed => "completed"
  | .failed => "failed"

/-- Terminal statuses: the `status === 'completed' || status === 'failed'` test
of `addDeploymentUpdate`. -/
def isTerminal : Status → Bool
  | .completed => true
  | .failed => true
  | _ => false

/-- One entry of a job's `updates` array (interface `DeploymentUpdate`). -/
structure DeploymentUpdate where
  status : Status
  message : String
  details : Option String
  timestamp : Nat
deriving DecidableEq, Repr

/-- One job record (interface `DeploymentStatus`). -/
structure DeploymentStatus where
  analysisId : String
  repoName : String
  status : Status
  startTime : Nat
  endTime : Option Nat
  updates : List DeploymentUpdate
  logs : String
deriving DecidableEq, Repr

/-- The registry: the `activeDeployments : Map<string, DeploymentStatus>` plus a
tick counter indexing reads of the wall clock. -/
structure Registry where
  deployments : List (String × DeploymentStatus)
  tick : Nat
deriving DecidableEq, Repr

/-- Lookup in the insertion-ordered map (`Map.get`). -/
def mapLookup : List (String × DeploymentStatus) → String → Option DeploymentStatus
  | [], _ => none
  | (k, v) :: rest, key => if k = key then some v else mapLookup rest key

/-- Insertion into the insertion-ordered map (`Map.set`): replaces the value at
an existing key in place, otherwise appends at the end. -/
def mapSet : List (String × DeploymentStatus) → String → DeploymentStatus → List (String × DeploymentStatus)
  | [], key, v => [(key, v)]
  | (k, w) :: rest, key, v => if k = key then (k, v) :: rest else (k, w) :: mapSet rest key v

/-- `getDeploymentStatus` of `azure-deploy.ts`. -/
def getDeploymentStatus (r : Registry) (deploymentId : String) : Option DeploymentStatus :=
  mapLookup r.deployments deploymentId

/-- `getAllDeployments` of `azure-deploy.ts`. -/
def getAllDeployments (r : Registry) : List DeploymentStatus :=
  r.deployments.map Prod.snd

/-- Detail suffix appended to the `logs` buffer when an update carries details. -/
def detailsText : Option String → String
  | some s => "\n" ++ s
  | none => ""

/-- The in-place mutation `addDeploymentUpdate` performs on the found record:
set `status`, push onto `updates`, extend `logs`, and set `endTime` on a
terminal status. -/
def pushUpdate (ts : Nat) (d : DeploymentStatus) (status : Status) (message : String)
    (details : Option String) : DeploymentStatus :=
  let u : DeploymentUpdate := ⟨status, message, details, ts⟩
  { d with
    status := status
    updates := d.updates ++ [u]
    logs := d.logs ++ "\n[" ++ toString ts ++ "] " ++ statusText status ++ ": " ++ message ++
      detailsText details
    endTime := if isTerminal status then some ts else d.endTime }

/-- `addDeploymentUpdate` of `azure-deploy.ts`: a no-op when the id is not in
the registry, otherwise the record mutation above, consuming one clock read. -/
def addDeploymentUpdate (tsrc : Nat → Nat) (r : Registry) (deploymentId : String)
    (status : Status) (message : String) (details : Option String) : Registry :=
  match mapLookup r.deployments deploymentId with
  | none => r
  | some d =>
    { deployments := mapSet r.deployments deploymentId
        (pushUpdate (tsrc r.tick) d status message details)
      tick := r.tick + 1 }

/-- Outcome of one child process (`spawn`): clean exit, non-zero exit, or a
launch failure (the `error` event, e.g. binary missing). -/
inductive CmdOutcome
  | exitZero
  | exitNonZero (code : Nat)
  | launchError (msg : String)
deriving DecidableEq, Repr

/-- Observable behaviour of one child process: the stdout/stderr chunks it
emits, then how it terminates. -/
structure CmdBehavior where
  chunks : List String
  outcome : CmdOutcome
deriving Repr

/-- The full captured output of a process: concatenation of all chunks. -/
def cmdOutput (b : CmdBehavior) : String := String.join b.chunks

/-- Effect of an `onOutput` streaming callback as used in `azure-deploy.ts`:
each chunk is turned into one update with a fixed status and message and the
chunk as details. `none` models calls made without a callback. -/
def streamUpdates (tsrc : Nat → Nat) (r : Registry) (deploymentId : String)
    (cb : Option (Status × String)) (chunks : List String) : Registry :=
  match cb with
  | none => r
  | some (st, msg) =>
    chunks.foldl (fun acc c => addDeploymentUpdate tsrc acc deploymentId st msg (some c)) r

/-- `executeCommand` of `azure-deploy.ts`: streams chunks through the optional
callback, resolves with the output on exit code 0, and on a non-zero exit or a
launch error first appends a `failed` update itself and then rejects. -/
def executeCommand (tsrc : Nat → Nat) (r : Registry) (deploymentId command argsStr : String)
    (b : CmdBehavior) (onOutput : Option (Status × String)) : Registry × Except String String :=
  let r1 := streamUpdates tsrc r deploymentId onOutput b.chunks
  match b.outcome with
  | .exitZero => (r1, .ok (cmdOutput b))
  | .exitNonZero code =>
    (addDeploymentUpdate tsrc r1 deploymentId .failed
        ("Command failed: " ++ command ++ " " ++ argsStr) (some (cmdOutput b)),
     .error ("Command failed with exit code " ++ toString code ++ ": " ++ cmdOutput b))
  | .launchError m =>
    (addDeploymentUpdate tsrc r1 deploymentId .failed
        ("Command error: " ++ m) (some (cmdOutput b)),
     .error m)

/-- Prefix test on character lists. -/
def isPrefixOfChars : List Char → List Char → Bool
  | [], _ => true
  | _ :: _, [] => false
  | a :: as, b :: bs => a == b && isPrefixOfChars as bs

/-- Substring occurrence test on character lists. -/
def containsSub : List Char → List Char → Bool
  | [], pat => pat.isEmpty
  | c :: cs, pat => isPrefixOfChars pat (c :: cs) || containsSub cs pat

/-- JavaScript `String.prototype.includes`: substring occurrence. -/
def includes (s pat : String) : Bool := containsSub s.data pat.data

/-- One `{name, content}` file of `analysis.terraformCode.files`. -/
structure TFile where
  name : String
  content : String
deriving DecidableEq, Repr

/-- The fields of `AnalysisResult` consumed by the deployment pipeline. -/
structure AnalysisResult where
  id : String
  repoName : String
  terraformCode : Option (List TFile)
deriving DecidableEq, Repr

/-- Environment for one run of the `deployTerraform` pipeline: the behaviour of
every external process it may spawn and of every filesystem call it may make.
File-write failure is modelled per target path (each path is written at most
once per run, with a fixed content, so this loses no generality). -/
structure DeployEnv where
  azVersion : CmdBehavior
  tfVersion : CmdBehavior
  accountShow : CmdBehavior
  accountParsedId : Option Bool
  login : CmdBehavior
  dirExists : Bool
  mkdirRes : Except String Unit
  writeRes : String → Except String Unit
  tfInit : CmdBehavior
  tfPlan : CmdBehavior
  tfApply : CmdBehavior

/-- `checkAzCliInstalled`: run `az --version`; any rejection is caught and
yields `false`, otherwise test the output for `azure-cli`. -/
def checkAzCliInstalled (tsrc : Nat → Nat) (r : Registry) (deploymentId : String)
    (env : DeployEnv) : Registry × Bool :=
  match executeCommand tsrc r deploymentId "az" "--version" env.azVersion none with
  | (r1, .ok out) => (r1, includes out "azure-cli")
  | (r1, .error _) => (r1, false)

/-- `checkTerraformInstalled`: run `terraform --version`; any rejection is
caught and yields `false`, otherwise test the output for `Terraform`. -/
def checkTerraformInstalled (tsrc : Nat → Nat) (r : Registry) (deploymentId : String)
    (env : DeployEnv) : Registry × Bool :=
  match executeCommand tsrc r deploymentId "terraform" "--version" env.tfVersion none with
  | (r1, .ok out) => (r1, includes out "Terraform")
  | (r1, .error _) => (r1, false)

/-- `checkAzureAuthentication`: run `az account show`; on success,
`env.accountParsedId` supplies the result of `JSON.parse` plus the `!!account.id`
test (`none` models a parse exception, caught and yielding `false`). -/
def checkAzureAuthentication (tsrc : Nat → Nat) (r : Registry) (deploymentId : String)
    (env : DeployEnv) : Registry × Bool :=
  match executeCommand tsrc r deploymentId "az" "account show" env.accountShow none with
  | (r1, .ok _) => (r1, env.accountParsedId.getD false)
  | (r1, .error _) => (r1, false)

/-- `loginToAzure`: short-circuits with one `authenticating` update when already
authenticated, otherwise runs the device-code login (streaming `authenticating`
updates) and appends a success update; a rejected login propagates. -/
def loginToAzure (tsrc : Nat → Nat) (r : Registry) (deploymentId : String)
    (env : DeployEnv) : Registry × Except String Unit :=
  match checkAzureAuthentication tsrc r deploymentId env with
  | (r1, true) =>
    (addDeploymentUpdate tsrc r1 deploymentId .authenticating
        "Already authenticated with Azure" none, .ok ())
  | (r1, false) =>
    let r2 := addDeploymentUpdate tsrc r1 deploymentId .authenticating
        "Starting Azure authentication process..." none
    match executeCommand tsrc r2 deploymentId "az" "login --use-device-code" env.login
        (some (.authenticating, "Azure authentication in progress")) with
    | (r3, .error m) => (r3, .error m)
    | (r3, .ok _) =>
      (addDeploymentUpdate tsrc r3 deploymentId .authenticating
          "Successfully authenticated with Azure" none, .ok ())

/-- JavaScript `repoName.replace('/', '_')`: only the first occurrence of the
slash is replaced. -/
def replaceFirstSlash : List Char → List Char
  | [] => []
  | c :: cs => if c = '/' then '_' :: cs else c :: replaceFirstSlash cs

/-- String-level wrapper for the single-occurrence replace. -/
def jsReplaceSlash (s : String) : String := ⟨replaceFirstSlash s.data⟩

/-- `path.join` as used by the pipeline. -/
def pathJoin (a b : String) : String := a ++ "/" ++ b

/-- The deployment working directory of `deployTerraform` (line 280): a
deterministic function of the repository name alone. -/
def deployDirOf (repoName : String) : String :=
  pathJoin "./tmp" (jsReplaceSlash repoName ++ "_terraform_deploy")

/-- The `fs.writeFileSync` loop over the bundle's files: stops at the first
failing write, whose exception propagates. -/
def writeAll (w : String → Except String Unit) (dir : String) : List TFile → Except String Unit
  | [] => .ok ()
  | f :: rest =>
    match w (pathJoin dir f.name) with
    | .error m => .error m
    | .ok _ => writeAll w dir rest

/-- Body of `deployTerraform` after its first (synchronous) `initializing`
update — everything from the tool checks on. Returns the final registry of the
try-block together with its outcome; a thrown error is the `.error` case. -/
def deployTerraformRest (tsrc : Nat → Nat) (r : Registry) (deploymentId : String)
    (analysis : AnalysisResult) (env : DeployEnv) : Registry × Except String Unit :=
  match checkAzCliInstalled tsrc r deploymentId env with
  | (r, false) => (r, .error "Azure CLI is not installed")
  | (r, true) =>
    match checkTerraformInstalled tsrc r deploymentId env with
    | (r, false) => (r, .error "Terraform is not installed")
    | (r, true) =>
      match loginToAzure tsrc r deploymentId env with
      | (r, .error m) => (r, .error m)
      | (r, .ok _) =>
        let deployDir := deployDirOf analysis.repoName
        let r := addDeploymentUpdate tsrc r deploymentId .preparing
            ("Preparing deployment directory: " ++ deployDir) none
        match (if env.dirExists then Except.ok () else env.mkdirRes) with
        | .error m => (r, .error m)
        | .ok _ =>
          match writeAll env.writeRes deployDir (analysis.terraformCode.getD []) with
          | .error m => (r, .error m)
          | .ok _ =>
            let r := addDeploymentUpdate tsrc r deploymentId .preparing
                "Initializing Terraform" none
            match executeCommand tsrc r deploymentId "terraform" "init" env.tfInit
                (some (.preparing, "Terraform initialization in progress")) with
            | (r, .error m) => (r, .error m)
            | (r, .ok _) =>
              let r := addDeploymentUpdate tsrc r deploymentId .planning
                  "Planning Terraform deployment" none
              match executeCommand tsrc r deploymentId "terraform" "plan -out=tfplan" env.tfPlan
                  (some (.planning, "Terraform plan in progress")) with
              | (r, .error m) => (r, .error m)
              | (r, .ok _) =>
                let r := addDeploymentUpdate tsrc r deploymentId .applying
                    "Applying Terraform deployment" none
                match executeCommand tsrc r deploymentId "terraform" "apply -auto-approve tfplan"
                    env.tfApply (some (.applying, "Terraform apply in progress")) with
                | (r, .error m) => (r, .error m)
                | (r, .ok _) =>
                  (addDeploymentUpdate tsrc r deploymentId .completed
                      ("Deployment completed successfully for " ++ analysis.repoName) none,
                   .ok ())

/-- `deployToAzure` up to the point where it returns the deployment id to the
caller. The background `deployTerraform` task is an async JavaScript function,
so its body runs synchronously up to its first `await`: by the time
`deployToAzure` returns, the job record has been created, registered, and has
received its first `initializing` update. Rejects when the analysis carries no
Terraform files. -/
def deployToAzure (tsrc : Nat → Nat) (r : Registry) (analysis : AnalysisResult) :
    Except String (String × Registry) :=
  match analysis.terraformCode with
  | none => .error "No Terraform code available for deployment"
  | some [] => .error "No Terraform code available for deployment"
  | some _ =>
    let deploymentId := "deploy-" ++ analysis.id ++ "-" ++ toString (tsrc r.tick)
    let d : DeploymentStatus :=
      { analysisId := analysis.id
        repoName := analysis.repoName
        status := .initializing
        startTime := tsrc r.tick
        endTime := none
        updates := []
        logs := "" }
    let r1 : Registry := { deployments := mapSet r.deployments deploymentId d, tick := r.tick + 1 }
    let r2 := addDeploymentUpdate tsrc r1 deploymentId .initializing
        ("Initializing deployment for " ++ analysis.repoName) none
    .ok (deploymentId, r2)

/-- A whole deployment: `deployToAzure` followed by the rest of the background
task. An error thrown by the try-block is appended as a `failed` update by the
catch of `deployTerraform` and then again, after the rethrow, by the `.catch`
attached in `deployToAzure`. -/
def runDeployment (tsrc : Nat → Nat) (r : Registry) (analysis : AnalysisResult)
    (env : DeployEnv) : Except String (String × Registry) :=
  match deployToAzure tsrc r analysis with
  | .error m => .error m
  | .ok (deploymentId, r1) =>
    .ok (deploymentId,
      match deployTerraformRest tsrc r1 deploymentId analysis env with
      | (r2, .ok _) => r2
      | (r2, .error m) =>
        let r3 := addDeploymentUpdate tsrc r2 deploymentId .failed
            ("Deployment failed: " ++ m) none
        addDeploymentUpdate tsrc r3 deploymentId .failed ("Deployment failed: " ++ m) none)

/-- One later call to `addDeploymentUpdate` (target id plus update payload). -/
structure UpdateOp where
  deploymentId : String
  status : Status
  message : String
  details : Option String
deriving DecidableEq, Repr

/-- Apply a sequence of `addDeploymentUpdate` calls to the registry. -/
def applyOps (tsrc : Nat → Nat) (r : Registry) : List UpdateOp → Registry
  | [] => r
  | op :: rest =>
    applyOps tsrc (addDeploymentUpdate tsrc r op.deploymentId op.status op.message op.details) rest

/-!
Embedding of `src/server/azure.ts`: the SDK credential gate and the
plan/apply pipeline built on the `TerraformWrapper` class.
-/

/-- JavaScript truthiness of an environment variable: `undefined` and the empty
string are both falsy under the `!tenantId` tests. -/
def envPresent : Option String → Bool
  | none => false
  | some s => !(s == "")

/-- JavaScript `error.message || "Unknown error"`. -/
def errMsg (m : String) : String := if m = "" then "Unknown error" else m

/-- Environment for `authenticateWithAzure`: the four credential environment
variables and the outcome of each Azure SDK call it makes. -/
structure AuthEnv where
  tenantId : Option String
  clientId : Option String
  clientSecret : Option String
  subscriptionId : Option String
  credentialCtor : Except String Unit
  getToken : Except String Unit
  resourceClientCtor : Except String Unit
  resourcesList : Except String Unit
deriving Repr

/-- Result shape of `authenticateWithAzure`; the optional `credentials` object
is modelled by its presence. -/
structure AuthResult where
  success : Bool
  message : String
  logs : List String
  isLoggedIn : Bool
  hasCredentials : Bool
  subscriptionId : Option String
deriving DecidableEq, Repr

/-- Try-block of `authenticateWithAzure`: returns the accumulated log lines
together with either the structured result or an escaping exception (only the
`DefaultAzureCredential` constructor can throw past the inner handlers). -/
def authenticateWithAzureTry (env : AuthEnv) : List String × Except String AuthResult :=
  let logs : List String :=
    ["Starting Azure authentication process...", "Initializing Azure SDK authentication..."]
  if !(envPresent env.tenantId) || !(envPresent env.clientId) ||
      !(envPresent env.clientSecret) || !(envPresent env.subscriptionId) then
    let logs := logs ++
      ["Missing required Azure credentials. Environment variables not set correctly.",
       "Please ensure AZURE_TENANT_ID, AZURE_CLIENT_ID, AZURE_CLIENT_SECRET, and AZURE_SUBSCRIPTION_ID are provided."]
    (logs, .ok { success := false
                 message := "Azure authentication failed: Missing required credentials"
                 logs := logs, isLoggedIn := false, hasCredentials := false
                 subscriptionId := none })
  else
    match env.credentialCtor with
    | .error m => (logs, .error m)
    | .ok _ =>
      let logs := logs ++ ["Checking Azure authentication by accessing subscription information..."]
      match env.getToken with
      | .error m =>
        let logs := logs ++ ["Authentication failed: " ++ m]
        (logs, .ok { success := false
                     message := "Azure authentication failed: Invalid credentials"
                     logs := logs, isLoggedIn := false, hasCredentials := false
                     subscriptionId := none })
      | .ok _ =>
        let subId := env.subscriptionId.getD ""
        let logs := logs ++
          ["Successfully authenticated with Azure SDK", "Using subscription: " ++ subId]
        match env.resourceClientCtor with
        | .error m =>
          let logs := logs ++ ["Authentication failed: " ++ m]
          (logs, .ok { success := false
                       message := "Azure authentication failed: Invalid credentials"
                       logs := logs, isLoggedIn := false, hasCredentials := false
                       subscriptionId := none })
        | .ok _ =>
          let logs := logs ++
            (match env.resourcesList with
             | .ok _ => ["Successfully accessed Azure resources"]
             | .error m => ["Warning: Could not access Azure resources: " ++ m])
          (logs, .ok { success := true
                       message := "Successfully authenticated with Azure"
                       logs := logs, isLoggedIn := true, hasCredentials := true
                       subscriptionId := some subId })

/-- `authenticateWithAzure` with its outer catch folded in: a total function,
every failure mode yields a structured `success = false` result. -/
def authenticateWithAzure (env : AuthEnv) : AuthResult :=
  match authenticateWithAzureTry env with
  | (_, .ok r) => r
  | (logs, .error m) =>
    let logs := logs ++ ["Azure SDK initialization error: " ++ errMsg m]
    { success := false
      message := "Azure authentication failed: " ++ errMsg m
      logs := logs, isLoggedIn := false, hasCredentials := false
      subscriptionId := none }

/-- `authenticateWithAzure` as seen from a caller that also observes exceptions:
the outer try/catch means the call always resolves. -/
def authenticateWithAzureTop (env : AuthEnv) : Except String AuthResult :=
  match authenticateWithAzureTry env with
  | (_, .ok r) => .ok r
  | (logs, .error m) =>
    let logs := logs ++ ["Azure SDK initialization error: " ++ errMsg m]
    .ok { success := false
          message := "Azure authentication failed: " ++ errMsg m
          logs := logs, isLoggedIn := false, hasCredentials := false
          subscriptionId := none }

/-- External-tool invocations performed by the `TerraformWrapper`, recorded as
an event trace (the directory is the wrapper's `cwd`). -/
inductive TfEvent
  | initRun (dir : String)
  | planRun (dir : String)
  | applyRun (dir : String)
  | outputRun (dir : String)
deriving DecidableEq, Repr

/-- The fields of the stored analysis consumed by `runTerraformPlan`. -/
structure StoredAnalysis where
  repoUrl : String
  terraformCode : Option (List TFile)
deriving DecidableEq, Repr

/-- Environment for one `runTerraformPlan` / `applyTerraformPlan` call:
`planArtifactExists` records whether a plan artifact for the job's directory is
already on disk (the code never reads it); the remaining fields give the
outcome of each storage, filesystem, process and parse step. File writes are
modelled per target path, as each path is written once with a fixed content. -/
structure PlanEnv where
  planArtifactExists : Bool
  analysis : Option StoredAnalysis
  tmpDirName : String
  writeFileRes : String → Except String Unit
  readVariablesRes : Except String String
  terraformInstalled : Bool
  initExec : Except String String
  planExec : Except String String
  applyExec : Except String String
  outputExec : Except String String
  jsonParse : String → Except String (List (String × String))

/-- The `Terraform CLI is not installed` diagnostic thrown by every wrapper
method when the binary is missing. -/
def tfMissingMsg : String :=
  "Terraform CLI is not installed or not available in PATH. Please install Terraform to use this feature. Visit https://developer.hashicorp.com/terraform/downloads for installation instructions."

/-- `TerraformWrapper.init` in the pipeline's configuration: the probe runs
first; providers.tf has just been written with an azurerm provider block, so
the provider.tf creation branch is skipped. Emits an `initRun` event when the
process is actually executed. -/
def tfWrapperInit (env : PlanEnv) (cwd : String) : List TfEvent × Except String String :=
  if !env.terraformInstalled then
    ([], .error ("Terraform init error: " ++ tfMissingMsg))
  else
    match env.initExec with
    | .ok out => ([.initRun cwd], .ok ("Initialized terraform in " ++ cwd ++ "\n" ++ out))
    | .error m =>
      ([.initRun cwd], .error ("Terraform init error: Terraform init execution error: " ++ m))

/-- `TerraformWrapper.plan` with `-out=tfplan`. -/
def tfWrapperPlan (env : PlanEnv) (cwd : String) : List TfEvent × Except String String :=
  if !env.terraformInstalled then
    ([], .error ("Terraform plan error: " ++ tfMissingMsg))
  else
    match env.planExec with
    | .ok out =>
      ([.planRun cwd], .ok (if out = "" then "Terraform plan completed successfully" else out))
    | .error m =>
      ([.planRun cwd], .error ("Terraform plan error: Terraform plan execution error: " ++ m))

/-- `TerraformWrapper.apply` with `-auto-approve`. -/
def tfWrapperApply (env : PlanEnv) (cwd : String) : List TfEvent × Except String String :=
  if !env.terraformInstalled then
    ([], .error ("Terraform apply error: " ++ tfMissingMsg))
  else
    match env.applyExec with
    | .ok out =>
      ([.applyRun cwd], .ok (if out = "" then "Terraform apply completed successfully" else out))
    | .error m =>
      ([.applyRun cwd], .error ("Terraform apply error: Terraform apply execution error: " ++ m))

/-- `TerraformWrapper.output` with `-json`: an empty output is replaced by an
empty JSON object. -/
def tfWrapperOutput (env : PlanEnv) (cwd : String) : List TfEvent × Except String String :=
  if !env.terraformInstalled then
    ([], .error ("Terraform output error: " ++ tfMissingMsg))
  else
    match env.outputExec with
    | .ok out => ([.outputRun cwd], .ok (if out = "" then "\x7b\x7d" else out))
    | .error m =>
      ([.outputRun cwd], .error ("Terraform output error: Terraform output execution error: " ++ m))

/-- Result shape of `runTerraformPlan`. -/
structure PlanResult where
  success : Bool
  message : String
  logs : List String
  planOutput : Option String
  terraformDir : Option String
deriving DecidableEq, Repr

/-- Catch-clause of `runTerraformPlan`: log the error and return a structured
failure carrying no directory. -/
def failPlan (logs : List String) (m : String) : PlanResult :=
  { success := false
    message := "Failed to run Terraform plan: " ++ errMsg m
    logs := logs ++ ["Error: " ++ errMsg m]
    planOutput := none
    terraformDir := none }

/-- `runTerraformPlan`: stages the stored Terraform bundle plus the injected
service-principal configuration into a fresh `tmp.dirSync` directory, then runs
`terraform init` and `terraform plan -out=tfplan` there, accumulating log lines.
A missing `terraform.tfvars` read is swallowed (treated as empty), so it is not
a failure point; the optional regex-derived plan-summary log line is omitted
from the model. Also returns the trace of tool invocations. -/
def runTerraformPlan (env : PlanEnv) : PlanResult × List TfEvent :=
  match env.analysis with
  | none => (failPlan [] "Analysis not found", [])
  | some analysis =>
    match analysis.terraformCode with
    | none => (failPlan [] "No Terraform code found for this analysis", [])
    | some files =>
      let terraformDir := env.tmpDirName
      let logs := ("Created temporary Terraform directory: " ++ terraformDir) ::
        files.map (fun f => "Creating file: " ++ f.name)
      match writeAll env.writeFileRes terraformDir files with
      | .error m => (failPlan logs m, [])
      | .ok _ =>
        let logs := logs ++ ["All Terraform files written to disk",
          "Adding service principal configuration..."]
        match env.writeFileRes (pathJoin terraformDir "providers.tf") with
        | .error m => (failPlan logs m, [])
        | .ok _ =>
          let logs := logs ++ ["Updated providers.tf with service principal configuration"]
          match env.readVariablesRes with
          | .error m => (failPlan logs m, [])
          | .ok _ =>
            match env.writeFileRes (pathJoin terraformDir "variables.tf") with
            | .error m => (failPlan logs m, [])
            | .ok _ =>
              let logs := logs ++ ["Updated variables.tf with service principal variables"]
              match env.writeFileRes (pathJoin terraformDir "terraform.tfvars") with
              | .error m => (failPlan logs m, [])
              | .ok _ =>
                let logs := logs ++
                  ["Updated terraform.tfvars with service principal values and defaults",
                   "Running Terraform init..."]
                match tfWrapperInit env terraformDir with
                | (evInit, .error m) =>
                  (failPlan (logs ++ ["Terraform init error: " ++ m]) m, evInit)
                | (evInit, .ok initOut) =>
                  let logs := logs ++ ["Terraform init completed successfully", initOut,
                    "Running Terraform plan..."]
                  match tfWrapperPlan env terraformDir with
                  | (evPlan, .error m) =>
                    (failPlan (logs ++ ["Terraform plan error: " ++ m]) m, evInit ++ evPlan)
                  | (evPlan, .ok planOut) =>
                    ({ success := true
                       message := "Terraform plan completed successfully"
                       logs := logs ++ ["Terraform plan completed successfully", planOut]
                       planOutput := some planOut
                       terraformDir := some terraformDir },
                     evInit ++ evPlan)

/-- Result shape of `applyTerraformPlan`; `outputs` is an optional field, only
present when output parsing succeeded. -/
structure ApplyResult where
  success : Bool
  message : String
  logs : List String
  outputs : Option (List (String × String))
deriving DecidableEq, Repr

/-- JavaScript `a || b` over possibly-absent strings (empty string is falsy),
used for `formattedOutputs.app_service_url || formattedOutputs.webapp_url`. -/
def jsOrStr (a b : Option String) : Option String :=
  match a with
  | some s => if s = "" then b else some s
  | none => b

/-- `applyTerraformPlan`: always re-runs the full planning stage first, then
applies in the directory the plan step returned, then queries outputs. A
failure to parse the outputs JSON is caught and degrades to a successful result
without an `outputs` field; the optional regex-derived apply-summary log line
is omitted from the model. Also returns the trace of tool invocations. -/
def applyTerraformPlan (env : PlanEnv) : ApplyResult × List TfEvent :=
  let (planResult, evs) := runTerraformPlan env
  if planResult.success = false then
    ({ success := false, message := "Failed to create Terraform plan",
       logs := planResult.logs, outputs := none }, evs)
  else
    match planResult.terraformDir with
    | none =>
      ({ success := false, message := "Could not find Terraform directory",
         logs := planResult.logs, outputs := none }, evs)
    | some terraformDir =>
      let logs := planResult.logs ++
        ["Using Terraform directory: " ++ terraformDir, "Running Terraform apply..."]
      match tfWrapperApply env terraformDir with
      | (evApply, .error m) =>
        ({ success := false, message := "Failed to apply Terraform plan: " ++ errMsg m,
           logs := logs ++ ["Terraform apply error: " ++ m, "Error: " ++ errMsg m],
           outputs := none }, evs ++ evApply)
      | (evApply, .ok applyOut) =>
        let logs := logs ++ ["Terraform apply completed successfully", applyOut,
          "Getting Terraform outputs..."]
        match tfWrapperOutput env terraformDir with
        | (evOut, .error m) =>
          ({ success := false, message := "Failed to apply Terraform plan: " ++ errMsg m,
             logs := logs ++ ["Terraform apply error: " ++ m, "Error: " ++ errMsg m],
             outputs := none }, evs ++ evApply ++ evOut)
        | (evOut, .ok outStr) =>
          match env.jsonParse outStr with
          | .ok kvs =>
            let logs := logs ++ kvs.map (fun kv => "Output " ++ kv.1 ++ ": " ++ kv.2)
            let logs :=
              match jsOrStr (kvs.lookup "app_service_url") (kvs.lookup "webapp_url") with
              | some appUrl => logs ++ ["🎉 Your application is available at: " ++ appUrl]
              | none => logs
            ({ success := true, message := "Terraform apply completed successfully",
               logs := logs, outputs := some kvs }, evs ++ evApply ++ evOut)
          | .error m =>
            ({ success := true,
               message := "Terraform apply completed successfully, but outputs could not be parsed",
               logs := logs ++ ["Warning: Unable to parse Terraform outputs: " ++ m],
               outputs := none }, evs ++ evApply ++ evOut)

/-!
Helper lemmas about the registry map and the update appender.
-/

theorem mapLookup_mapSet_self (m : List (String × DeploymentStatus)) (k : String)
    (v : DeploymentStatus) : mapLookup (mapSet m k v) k = some v := by
  induction m with
  | nil => simp [mapSet, mapLookup]
  | cons h t ih =>
    obtain ⟨k', v'⟩ := h
    by_cases hk : k' = k <;> simp [mapSet, mapLookup, hk, ih]

theorem mapLookup_mapSet_ne (m : List (String × DeploymentStatus)) (k k' : String)
    (v : DeploymentStatus) (h : k' ≠ k) :
    mapLookup (mapSet m k v) k' = mapLookup m k' := by
  have hne : ¬ k = k' := fun he => h he.symm
  induction m with
  | nil =>
    simp only [mapSet, mapLookup]
    rw [if_neg hne]
  | cons hd t ih =>
    obtain ⟨k₀, v₀⟩ := hd
    by_cases hk : k₀ = k
    · subst hk
      simp only [mapSet, if_pos rfl, mapLookup]
      rw [if_neg hne, if_neg hne]
    · simp only [mapSet, if_neg hk, mapLookup]
      by_cases hq : k₀ = k'
      · rw [if_pos hq, if_pos hq]
      · rw [if_neg hq, if_neg hq, ih]

theorem addU_of_none (tsrc : Nat → Nat) (r : Registry) (tid : String) (st : Status)
    (msg : String) (det : Option String) (h : mapLookup r.deployments tid = none) :
    addDeploymentUpdate tsrc r tid st msg det = r := by
  unfold addDeploymentUpdate
  rw [h]

theorem addU_lookup_self (tsrc : Nat → Nat) (r : Registry) (tid : String) (st : Status)
    (msg : String) (det : Option String) (d : DeploymentStatus)
    (h : mapLookup r.deployments tid = some d) :
    getDeploymentStatus (addDeploymentUpdate tsrc r tid st msg det) tid =
      some (pushUpdate (tsrc r.tick) d st msg det) := by
  unfold addDeploymentUpdate getDeploymentStatus
  rw [h]
  exact mapLookup_mapSet_self _ _ _

theorem addU_lookup_other (tsrc : Nat → Nat) (r : Registry) (tid qid : String) (st : Status)
    (msg : String) (det : Option String) (h : qid ≠ tid) :
    getDeploymentStatus (addDeploymentUpdate tsrc r tid st msg det) qid =
      getDeploymentStatus r qid := by
  unfold addDeploymentUpdate getDeploymentStatus
  cases hj : mapLookup r.deployments tid with
  | none => rfl
  | some d => exact mapLookup_mapSet_ne _ _ _ _ h

/-- A job satisfying a record-level predicate keeps satisfying it across one
`addDeploymentUpdate` call (to any target), provided the predicate is closed
under the record mutation with this call's payload. -/
theorem someAt_addU (P : DeploymentStatus → Prop) (tsrc : Nat → Nat) (r : Registry)
    (tid qid : String) (st : Status) (msg : String) (det : Option String)
    (hP : ∀ ts d, P d → P (pushUpdate ts d st msg det))
    (h : ∃ d, getDeploymentStatus r qid = some d ∧ P d) :
    ∃ d, getDeploymentStatus (addDeploymentUpdate tsrc r tid st msg det) qid = some d ∧ P d := by
  obtain ⟨d, hd, hPd⟩ := h
  by_cases hq : qid = tid
  · subst hq
    rw [addU_lookup_self tsrc r qid st msg det d hd]
    exact ⟨_, rfl, hP _ _ hPd⟩
  · rw [addU_lookup_other tsrc r tid qid st msg det hq]
    exact ⟨d, hd, hPd⟩

/-- A record-level predicate closed under every possible record mutation is
preserved by any later sequence of `addDeploymentUpdate` calls. -/
theorem someAt_applyOps (P : DeploymentStatus → Prop)
    (hP : ∀ ts d st msg det, P d → P (pushUpdate ts d st msg det))
    (ops : List UpdateOp) :
    ∀ (tsrc : Nat → Nat) (r : Registry) (qid : String),
      (∃ d, getDeploymentStatus r qid = some d ∧ P d) →
      ∃ d, getDeploymentStatus (applyOps tsrc r ops) qid = some d ∧ P d := by
  induction ops with
  | nil => intro tsrc r qid h; exact h
  | cons op rest ih =>
    intro tsrc r qid h
    exact ih tsrc _ qid
      (someAt_addU P tsrc r op.deploymentId qid op.status op.message op.details
        (fun ts d => hP ts d op.status op.message op.details) h)

/-- Shape of the job record at the moment `deployToAzure` returns: registered
under the returned id, with exactly the one `initializing` update appended by
the synchronous prefix of the background task. -/
theorem deployToAzure_ok (tsrc : Nat → Nat) (r : Registry) (a : AnalysisResult)
    (id : String) (r2 : Registry) (h : deployToAzure tsrc r a = .ok (id, r2)) :
    ∃ d, getDeploymentStatus r2 id = some d ∧ d.status = .initializing ∧ d.endTime = none ∧
      ∃ u, d.updates = [u] ∧ u.status = .initializing := by
  unfold deployToAzure at h
  cases htc : a.terraformCode with
  | none => rw [htc] at h; exact absurd h (by simp)
  | some fs =>
    cases fs with
    | nil => rw [htc] at h; exact absurd h (by simp)
    | cons f fs' =>
      rw [htc] at h
      simp only [Except.ok.injEq, Prod.mk.injEq] at h
      obtain ⟨hid, hr2⟩ := h
      subst hid
      subst hr2
      rw [addU_lookup_self _ _ _ _ _ _ _ (mapLookup_mapSet_self _ _ _)]
      exact ⟨_, rfl, rfl, rfl, _, rfl, rfl⟩

/-!
Concrete inputs used by witness and counterexample theorems.
-/

/-- Identity time source: successive clock reads yield distinct values. -/
def tsrcId : Nat → Nat := fun n => n

/-- Frozen clock: every `Date.now()` read within the window yields the same
millisecond value, as happens for calls within one millisecond. -/
def tsrcConst : Nat → Nat := fun _ => 7

/-- Registry before any deployment. -/
def emptyRegistry : Registry := ⟨[], 0⟩

/-- An analysis carrying one Terraform file. -/
def wAnalysis : AnalysisResult := ⟨"a1", "owner/repo", some [⟨"main.tf", "resource"⟩]⟩

/-- Registry extractor for a successful pipeline result. -/
def sndRegOf : Except String (String × Registry) → Registry
  | .ok p => p.2
  | .error _ => ⟨[], 0⟩

/-- Deployment environment in which every probe and the login succeed, staging
succeeds, but `terraform init` exits non-zero. -/
def envInitFail : DeployEnv :=
  { azVersion := ⟨["azure-cli 2.50"], .exitZero⟩
    tfVersion := ⟨["Terraform v1.5.0"], .exitZero⟩
    accountShow := ⟨["acct"], .exitZero⟩
    accountParsedId := some true
    login := ⟨[], .exitZero⟩
    dirExists := true
    mkdirRes := .ok ()
    writeRes := fun _ => .ok ()
    tfInit := ⟨["init output"], .exitNonZero 1⟩
    tfPlan := ⟨[], .exitZero⟩
    tfApply := ⟨[], .exitZero⟩ }

/-- Deployment environment in which the `az` binary is absent (spawn fails). -/
def envAzMissing : DeployEnv :=
  { envInitFail with azVersion := ⟨[], .launchError "spawn az ENOENT"⟩ }

/-- Deployment environment in which the Azure CLI probe succeeds but the
`terraform` binary is absent (spawn fails). -/
def envTfMissing : DeployEnv :=
  { envInitFail with tfVersion := ⟨[], .launchError "spawn terraform ENOENT"⟩ }

/-- Deployment environment in which checks and login succeed but every
configuration-file write fails. -/
def envWriteFail : DeployEnv :=
  { envInitFail with writeRes := fun _ => .error "ENOSPC: no space left on device" }

/-!
Claim theorems.
-/

/-- C1: for a job created by `deployToAzure` and after any later sequence of
`addDeploymentUpdate` calls, the record's top-level `status` equals the
`status` of the last element of its (non-empty) `updates` array. -/
theorem status_eq_last_update_status (tsrc : Nat → Nat) (r : Registry) (a : AnalysisResult)
    (id : String) (r2 : Registry) (ops : List UpdateOp)
    (h : deployToAzure tsrc r a = .ok (id, r2)) :
    ∃ d, getDeploymentStatus (applyOps tsrc r2 ops) id = some d ∧
      d.updates ≠ [] ∧ d.updates.getLast?.map (fun u => u.status) = some d.status := by
  obtain ⟨d0, hd0, hstat, hend, u, hupd, hust⟩ := deployToAzure_ok tsrc r a id r2 h
  have base : ∃ d, getDeploymentStatus r2 id = some d ∧
      d.updates.getLast?.map (fun v => v.status) = some d.status :=
    ⟨d0, hd0, by rw [hupd, hstat]; simp [hust]⟩
  obtain ⟨d, hd, hP⟩ := someAt_applyOps
    (fun d => d.updates.getLast?.map (fun v => v.status) = some d.status)
    (fun ts d st msg det hPd => by simp [pushUpdate]) ops tsrc r2 id base
  refine ⟨d, hd, ?_, hP⟩
  intro hnil
  rw [hnil] at hP
  simp at hP

/-- C1 witness: a concrete job with one later append. -/
theorem status_eq_last_update_status_witness :
    ∃ d, getDeploymentStatus
        (applyOps tsrcId (sndRegOf (deployToAzure tsrcId emptyRegistry wAnalysis))
          [⟨"deploy-a1-0", .failed, "boom", none⟩]) "deploy-a1-0" = some d ∧
      d.updates ≠ [] ∧ d.updates.getLast?.map (fun u => u.status) = some d.status :=
  status_eq_last_update_status tsrcId emptyRegistry wAnalysis "deploy-a1-0"
    (sndRegOf (deployToAzure tsrcId emptyRegistry wAnalysis))
    [⟨"deploy-a1-0", .failed, "boom", none⟩] rfl

/-- C2: from the moment `deployToAzure` returns the job id, and after any later
sequence of `addDeploymentUpdate` calls, the job's `updates` array is non-empty
and its first element has status `initializing`. -/
theorem updates_start_initializing (tsrc : Nat → Nat) (r : Registry) (a : AnalysisResult)
    (id : String) (r2 : Registry) (ops : List UpdateOp)
    (h : deployToAzure tsrc r a = .ok (id, r2)) :
    ∃ d, getDeploymentStatus (applyOps tsrc r2 ops) id = some d ∧
      d.updates ≠ [] ∧ d.updates.head?.map (fun u => u.status) = some Status.initializing := by
  obtain ⟨d0, hd0, hstat, hend, u, hupd, hust⟩ := deployToAzure_ok tsrc r a id r2 h
  have base : ∃ d, getDeploymentStatus r2 id = some d ∧
      d.updates.head?.map (fun v => v.status) = some Status.initializing :=
    ⟨d0, hd0, by rw [hupd]; simp [hust]⟩
  obtain ⟨d, hd, hP⟩ := someAt_applyOps
    (fun d => d.updates.head?.map (fun v => v.status) = some Status.initializing)
    (fun ts d st msg det hPd => by
      replace hPd : d.updates.head?.map (fun v => v.status) = some Status.initializing := hPd
      cases hu : d.updates with
      | nil => rw [hu] at hPd; simp at hPd
      | cons a as =>
        rw [hu] at hPd
        simp only [List.head?_cons, Option.map_some] at hPd
        simp [pushUpdate, hu, hPd]) ops tsrc r2 id base
  refine ⟨d, hd, ?_, hP⟩
  intro hnil
  rw [hnil] at hP
  simp at hP

/-- C2 witness: a concrete job observed after one later append. -/
theorem updates_start_initializing_witness :
    ∃ d, getDeploymentStatus
        (applyOps tsrcId (sndRegOf (deployToAzure tsrcId emptyRegistry wAnalysis))
          [⟨"deploy-a1-0", .preparing, "staging", none⟩]) "deploy-a1-0" = some d ∧
      d.updates ≠ [] ∧ d.updates.head?.map (fun u => u.status) = some Status.initializing :=
  updates_start_initializing tsrcId emptyRegistry wAnalysis "deploy-a1-0"
    (sndRegOf (deployToAzure tsrcId emptyRegistry wAnalysis))
    [⟨"deploy-a1-0", .preparing, "staging", none⟩] rfl

/-- C10: `addDeploymentUpdate` with an id absent from the registry leaves the
whole registry — map and every job record — unchanged. -/
theorem addDeploymentUpdate_unknown_id_noop (tsrc : Nat → Nat) (r : Registry) (id : String)
    (st : Status) (msg : String) (det : Option String)
    (h : getDeploymentStatus r id = none) :
    addDeploymentUpdate tsrc r id st msg det = r :=
  addU_of_none tsrc r id st msg det h

/-- C10 witness: unknown id on a registry holding one job. -/
theorem addDeploymentUpdate_unknown_id_noop_witness :
    addDeploymentUpdate tsrcId (sndRegOf (deployToAzure tsrcId emptyRegistry wAnalysis))
        "deploy-zz-9" .failed "boom" none =
      sndRegOf (deployToAzure tsrcId emptyRegistry wAnalysis) :=
  addDeploymentUpdate_unknown_id_noop tsrcId
    (sndRegOf (deployToAzure tsrcId emptyRegistry wAnalysis)) "deploy-zz-9" .failed "boom" none rfl

/-- C9 counterexample: with a failing `terraform init`, the pipeline appends a
`failed` update from `executeCommand` (timestamp 6) and two more from the catch
handlers; the final `endTime` is 8, not the timestamp 6 at which the status
first became `failed` — so the finish timestamp was overwritten after it was
first set, refuting "written exactly once and never overwritten". -/
theorem endTime_overwritten_counterexample :
    ((getDeploymentStatus (sndRegOf (runDeployment tsrcId emptyRegistry wAnalysis envInitFail))
        "deploy-a1-0").map (fun d => d.endTime) = some (some 8)) ∧
    ((getDeploymentStatus (sndRegOf (runDeployment tsrcId emptyRegistry wAnalysis envInitFail))
        "deploy-a1-0").map
      (fun d => (d.updates.filter (fun u => isTerminal u.status)).head?.map
        (fun u => u.timestamp)) = some (some 6)) ∧
    (6 : Nat) ≠ 8 := by
  refine ⟨by decide, by decide, by decide⟩

/-- C9 amended: `endTime` is set on every terminal update, so after any append
sequence it equals the timestamp of the last `completed`/`failed` update (and
is absent while no terminal update exists); it is not write-once. -/
theorem endTime_eq_last_terminal_timestamp (tsrc : Nat → Nat) (r : Registry)
    (a : AnalysisResult) (id : String) (r2 : Registry) (ops : List UpdateOp)
    (h : deployToAzure tsrc r a = .ok (id, r2)) :
    ∃ d, getDeploymentStatus (applyOps tsrc r2 ops) id = some d ∧
      d.endTime = ((d.updates.filter (fun u => isTerminal u.status)).getLast?).map
        (fun u => u.timestamp) := by
  obtain ⟨d0, hd0, hstat, hend, u, hupd, hust⟩ := deployToAzure_ok tsrc r a id r2 h
  have base : ∃ d, getDeploymentStatus r2 id = some d ∧
      d.endTime = ((d.updates.filter (fun v => isTerminal v.status)).getLast?).map
        (fun v => v.timestamp) :=
    ⟨d0, hd0, by rw [hupd, hend]; simp [isTerminal, hust]⟩
  exact someAt_applyOps
    (fun d => d.endTime = ((d.updates.filter (fun v => isTerminal v.status)).getLast?).map
      (fun v => v.timestamp))
    (fun ts d st msg det hPd => by
      replace hPd : d.endTime =
          ((d.updates.filter (fun v => isTerminal v.status)).getLast?).map
            (fun v => v.timestamp) := hPd
      simp only [pushUpdate, List.filter_append]
      cases hterm : isTerminal st with
      | true => simp [hterm]
      | false => simp [hterm, hPd]) ops tsrc r2 id base

/-- C9 amended witness: the concrete failing-init run. -/
theorem endTime_eq_last_terminal_timestamp_witness :
    ∃ d, getDeploymentStatus
        (applyOps tsrcId (sndRegOf (deployToAzure tsrcId emptyRegistry wAnalysis))
          [⟨"deploy-a1-0", .failed, "boom", none⟩, ⟨"deploy-a1-0", .failed, "again", none⟩])
        "deploy-a1-0" = some d ∧
      d.endTime = ((d.updates.filter (fun u => isTerminal u.status)).getLast?).map
        (fun u => u.timestamp) :=
  endTime_eq_last_terminal_timestamp tsrcId emptyRegistry wAnalysis "deploy-a1-0"
    (sndRegOf (deployToAzure tsrcId emptyRegistry wAnalysis))
    [⟨"deploy-a1-0", .failed, "boom", none⟩, ⟨"deploy-a1-0", .failed, "again", none⟩] rfl

/-- Left cancellation for string concatenation. -/
theorem append_cancel_left_str (s x y : String) (h : s ++ x = s ++ y) : x = y := by
  have hd : s.data ++ x.data = s.data ++ y.data := congrArg String.data h
  have hxy : x.data = y.data := List.append_cancel_left hd
  cases x with
  | mk xd =>
    cases y with
    | mk yd => exact congrArg String.mk hxy

/-- C3 counterexample: two deployments started from the same analysis in the
same millisecond (`Date.now()` reads the same value) receive the same job id
`deploy-a1-7`, and the second `Map.set` replaces the first job's record — after
the second creation the registry holds a single record with one update, the
first job's history having been clobbered. This refutes both the distinct-ids
part and the no-mutation part of the claim. -/
theorem same_ms_id_collision_counterexample :
    ((deployToAzure tsrcConst emptyRegistry wAnalysis).toOption.map Prod.fst =
      some "deploy-a1-7") ∧
    ((deployToAzure tsrcConst (sndRegOf (deployToAzure tsrcConst emptyRegistry wAnalysis))
        wAnalysis).toOption.map Prod.fst = some "deploy-a1-7") ∧
    ((getDeploymentStatus
        (sndRegOf (deployToAzure tsrcConst
          (sndRegOf (deployToAzure tsrcConst emptyRegistry wAnalysis)) wAnalysis))
        "deploy-a1-7").map (fun d => d.updates.length) = some 1) := by
  refine ⟨by decide, by decide, by decide⟩

/-- C3 amended: two jobs created from the same analysis receive distinct ids
only when their `Date.now()` readings render differently, and then an append to
the second job leaves the first job's record unchanged; the working directory
(`deployDirOf`) is a function of the repository name alone, hence shared, not
distinct, between the two jobs. -/
theorem distinct_time_jobs_isolated (tsrc : Nat → Nat) (r : Registry) (a : AnalysisResult)
    (id1 id2 : String) (r1 r2 : Registry)
    (h1 : deployToAzure tsrc r a = .ok (id1, r1))
    (h2 : deployToAzure tsrc r1 a = .ok (id2, r2))
    (hne : toString (tsrc r.tick) ≠ toString (tsrc r1.tick)) :
    id1 ≠ id2 ∧
    (∀ st msg det, getDeploymentStatus (addDeploymentUpdate tsrc r2 id2 st msg det) id1 =
      getDeploymentStatus r2 id1) ∧
    (∀ b : AnalysisResult, b.repoName = a.repoName → deployDirOf b.repoName = deployDirOf a.repoName) := by
  unfold deployToAzure at h1 h2
  cases htc : a.terraformCode with
  | none => rw [htc] at h1; exact absurd h1 (by simp)
  | some fs =>
    cases fs with
    | nil => rw [htc] at h1; exact absurd h1 (by simp)
    | cons f fs' =>
      rw [htc] at h1 h2
      simp only [Except.ok.injEq, Prod.mk.injEq] at h1 h2
      obtain ⟨hid1, hr1⟩ := h1
      obtain ⟨hid2, hr2⟩ := h2
      have hne12 : id1 ≠ id2 := by
        intro he
        apply hne
        exact append_cancel_left_str ("deploy-" ++ a.id ++ "-") _ _
          (hid1.trans (he.trans hid2.symm))
      exact ⟨hne12,
        fun st msg det => addU_lookup_other tsrc r2 id2 id1 st msg det hne12,
        fun b hb => by rw [hb]⟩

/-- C3 amended witness: two creations at distinct clock values. -/
theorem distinct_time_jobs_isolated_witness :
    "deploy-a1-0" ≠ "deploy-a1-2" ∧
    getDeploymentStatus
        (addDeploymentUpdate tsrcId
          (sndRegOf (deployToAzure tsrcId
            (sndRegOf (deployToAzure tsrcId emptyRegistry wAnalysis)) wAnalysis))
          "deploy-a1-2" .failed "kaboom" (some "out")) "deploy-a1-0" =
      getDeploymentStatus
        (sndRegOf (deployToAzure tsrcId
          (sndRegOf (deployToAzure tsrcId emptyRegistry wAnalysis)) wAnalysis))
        "deploy-a1-0" := by
  have h := distinct_time_jobs_isolated tsrcId emptyRegistry wAnalysis
    "deploy-a1-0" "deploy-a1-2"
    (sndRegOf (deployToAzure tsrcId emptyRegistry wAnalysis))
    (sndRegOf (deployToAzure tsrcId
      (sndRegOf (deployToAzure tsrcId emptyRegistry wAnalysis)) wAnalysis))
    rfl rfl (by decide)
  exact ⟨h.1, h.2.1 .failed "kaboom" (some "out")⟩

/-- C7 counterexample: with the `az` binary absent, the job does fail with a
diagnostic naming the tool, but it never reaches the `preparing` stage — the
update history is `initializing` followed only by `failed` updates, and the
update preceding the first failure has status `initializing`, not `preparing`.
This refutes the "fails at the preparing stage" part of the claim. -/
theorem missing_tool_not_at_preparing_counterexample :
    ((getDeploymentStatus (sndRegOf (runDeployment tsrcId emptyRegistry wAnalysis envAzMissing))
        "deploy-a1-0").map (fun d => d.status) = some Status.failed) ∧
    ((getDeploymentStatus (sndRegOf (runDeployment tsrcId emptyRegistry wAnalysis envAzMissing))
        "deploy-a1-0").map (fun d => d.updates.map (fun u => u.status)) =
      some [Status.initializing, Status.failed, Status.failed, Status.failed]) ∧
    ((getDeploymentStatus (sndRegOf (runDeployment tsrcId emptyRegistry wAnalysis envAzMissing))
        "deploy-a1-0").map
      (fun d => d.updates.filter (fun u => u.status == Status.preparing)) = some []) := by
  refine ⟨by decide, by decide, by decide⟩

/-!
Machinery for the staging-atomicity claim: outcome predicates on the
environment and preservation of the "no planning or applying update"
property along the pipeline.
-/

/-- A child process exits cleanly. -/
def cmdOk (b : CmdBehavior) : Bool :=
  match b.outcome with
  | .exitZero => true
  | _ => false

/-- The Azure CLI probe succeeds. -/
def azOk (env : DeployEnv) : Bool :=
  cmdOk env.azVersion && includes (cmdOutput env.azVersion) "azure-cli"

/-- The Terraform probe succeeds. -/
def tfOk (env : DeployEnv) : Bool :=
  cmdOk env.tfVersion && includes (cmdOutput env.tfVersion) "Terraform"

/-- An Azure session is already present (`az account show` succeeds and the
parsed account has an id). -/
def sessionOk (env : DeployEnv) : Bool :=
  cmdOk env.accountShow && env.accountParsedId.getD false

/-- `loginToAzure` resolves: either a session exists or the device-code login
exits cleanly. -/
def loginOk (env : DeployEnv) : Bool := sessionOk env || cmdOk env.login

theorem cmdOk_exitZero (b : CmdBehavior) (h : cmdOk b = true) : b.outcome = .exitZero := by
  unfold cmdOk at h
  cases hb : b.outcome <;> rw [hb] at h <;> first | rfl | exact absurd h (by simp)

/-- No update of the record is a `planning` or `applying` update. -/
def noPlanApply (d : DeploymentStatus) : Prop :=
  ∀ u ∈ d.updates, u.status ≠ Status.planning ∧ u.status ≠ Status.applying

theorem noPlanApply_push (st : Status) (msg : String) (det : Option String) (ts : Nat)
    (d : DeploymentStatus) (hst1 : st ≠ Status.planning) (hst2 : st ≠ Status.applying)
    (hd : noPlanApply d) : noPlanApply (pushUpdate ts d st msg det) := by
  intro u hu
  simp only [pushUpdate, List.mem_append, List.mem_singleton] at hu
  rcases hu with hu | rfl
  · exact hd u hu
  · exact ⟨hst1, hst2⟩

/-- The job at `qid` exists and has no planning/applying update. -/
def someNoPA (r : Registry) (qid : String) : Prop :=
  ∃ d, getDeploymentStatus r qid = some d ∧ noPlanApply d

theorem addU_noPA (tsrc : Nat → Nat) (r : Registry) (tid qid : String) (st : Status)
    (msg : String) (det : Option String) (hst1 : st ≠ Status.planning)
    (hst2 : st ≠ Status.applying) (h : someNoPA r qid) :
    someNoPA (addDeploymentUpdate tsrc r tid st msg det) qid :=
  someAt_addU noPlanApply tsrc r tid qid st msg det
    (fun ts d hd => noPlanApply_push st msg det ts d hst1 hst2 hd) h

theorem stream_noPA (tsrc : Nat → Nat) (tid qid : String) (st : Status) (msg : String)
    (hst1 : st ≠ Status.planning) (hst2 : st ≠ Status.applying) (chunks : List String) :
    ∀ (r : Registry), someNoPA r qid →
      someNoPA (streamUpdates tsrc r tid (some (st, msg)) chunks) qid := by
  induction chunks with
  | nil => intro r h; exact h
  | cons c cs ih =>
    intro r h
    show someNoPA
      (streamUpdates tsrc (addDeploymentUpdate tsrc r tid st msg (some c)) tid (some (st, msg)) cs) qid
    exact ih _ (addU_noPA tsrc r tid qid st msg (some c) hst1 hst2 h)

theorem checkAz_of_azOk (tsrc : Nat → Nat) (r : Registry) (tid : String) (env : DeployEnv)
    (h : azOk env = true) : checkAzCliInstalled tsrc r tid env = (r, true) := by
  unfold azOk at h
  rw [Bool.and_eq_true] at h
  obtain ⟨h1, h2⟩ := h
  have ho := cmdOk_exitZero _ h1
  unfold checkAzCliInstalled executeCommand streamUpdates
  rw [ho]
  simp [h2]

theorem checkTf_of_tfOk (tsrc : Nat → Nat) (r : Registry) (tid : String) (env : DeployEnv)
    (h : tfOk env = true) : checkTerraformInstalled tsrc r tid env = (r, true) := by
  unfold tfOk at h
  rw [Bool.and_eq_true] at h
  obtain ⟨h1, h2⟩ := h
  have ho := cmdOk_exitZero _ h1
  unfold checkTerraformInstalled executeCommand streamUpdates
  rw [ho]
  simp [h2]

/-- When the login path succeeds, `loginToAzure` resolves and preserves the
no-planning/applying property of any job (every update it appends has status
`authenticating` or — from a failing `az account show` — `failed`). -/
theorem login_noPA (tsrc : Nat → Nat) (r : Registry) (tid qid : String) (env : DeployEnv)
    (hl : loginOk env = true) (h : someNoPA r qid) :
    ∃ r', loginToAzure tsrc r tid env = (r', .ok ()) ∧ someNoPA r' qid := by
  unfold loginOk at hl
  rw [Bool.or_eq_true] at hl
  unfold loginToAzure
  by_cases hs : sessionOk env = true
  · have hchk : checkAzureAuthentication tsrc r tid env = (r, true) := by
      unfold sessionOk at hs
      rw [Bool.and_eq_true] at hs
      obtain ⟨h1, h2⟩ := hs
      have ho := cmdOk_exitZero _ h1
      unfold checkAzureAuthentication executeCommand streamUpdates
      rw [ho]
      simp [h2]
    rw [hchk]
    exact ⟨_, rfl, addU_noPA tsrc r tid qid .authenticating
      "Already authenticated with Azure" none (by decide) (by decide) h⟩
  · have hlog : cmdOk env.login = true := hl.resolve_left hs
    have hoL := cmdOk_exitZero _ hlog
    have hchk : ∃ r1, checkAzureAuthentication tsrc r tid env = (r1, false) ∧ someNoPA r1 qid := by
      unfold checkAzureAuthentication executeCommand streamUpdates
      cases ho : env.accountShow.outcome with
      | exitZero =>
        have hpf : env.accountParsedId.getD false = false := by
          unfold sessionOk cmdOk at hs
          rw [ho] at hs
          simpa using hs
        exact ⟨r, by simp [hpf], h⟩
      | exitNonZero c =>
        refine ⟨_, ?_, addU_noPA tsrc r tid qid .failed
          ("Command failed: " ++ "az" ++ " " ++ "account show")
          (some (cmdOutput env.accountShow)) (by decide) (by decide) h⟩
        simp [ho]
      | launchError mm =>
        refine ⟨_, ?_, addU_noPA tsrc r tid qid .failed
          ("Command error: " ++ mm)
          (some (cmdOutput env.accountShow)) (by decide) (by decide) h⟩
        simp [ho]
    obtain ⟨r1, hchk1, h1⟩ := hchk
    rw [hchk1]
    have h2 : someNoPA (addDeploymentUpdate tsrc r1 tid .authenticating
        "Starting Azure authentication process..." none) qid :=
      addU_noPA tsrc r1 tid qid .authenticating _ none (by decide) (by decide) h1
    have hexec : executeCommand tsrc
        (addDeploymentUpdate tsrc r1 tid .authenticating
          "Starting Azure authentication process..." none)
        tid "az" "login --use-device-code" env.login
        (some (.authenticating, "Azure authentication in progress")) =
        (streamUpdates tsrc
          (addDeploymentUpdate tsrc r1 tid .authenticating
            "Starting Azure authentication process..." none)
          tid (some (.authenticating, "Azure authentication in progress")) env.login.chunks,
         .ok (cmdOutput env.login)) := by
      unfold executeCommand
      rw [hoL]
    refine ⟨_, ?_,
      addU_noPA tsrc
        (streamUpdates tsrc
          (addDeploymentUpdate tsrc r1 tid .authenticating
            "Starting Azure authentication process..." none)
          tid (some (.authenticating, "Azure authentication in progress")) env.login.chunks)
        tid qid .authenticating "Successfully authenticated with Azure" none
        (by decide) (by decide)
        (stream_noPA tsrc tid qid .authenticating "Azure authentication in progress"
          (by decide) (by decide) env.login.chunks _ h2)⟩
    simp only [hexec]

/-- Shape of the job record after a failed-command append followed by the two
catch-handler appends: terminal `failed`, every update `initializing` or
`failed`, and the catch diagnostic present among the updates. -/
theorem failed_chain_shape (tsrc : Nat → Nat) (r2 : Registry) (id0 : String)
    (d0 : DeploymentStatus) (u0 : DeploymentUpdate) (msg1 msg2 : String) (det : Option String)
    (hd0 : getDeploymentStatus r2 id0 = some d0)
    (hupd : d0.updates = [u0]) (hust : u0.status = .initializing) :
    ∃ d, getDeploymentStatus
        (addDeploymentUpdate tsrc
          (addDeploymentUpdate tsrc
            (addDeploymentUpdate tsrc r2 id0 .failed msg1 det)
            id0 .failed msg2 none)
          id0 .failed msg2 none) id0 = some d ∧
      d.status = .failed ∧
      (∀ u ∈ d.updates, u.status = .initializing ∨ u.status = .failed) ∧
      ∃ u, u ∈ d.updates ∧ u.status = .failed ∧ u.message = msg2 := by
  have l1 := addU_lookup_self tsrc r2 id0 .failed msg1 det d0 hd0
  have l2 := addU_lookup_self tsrc _ id0 .failed msg2 none _ l1
  have l3 := addU_lookup_self tsrc _ id0 .failed msg2 none _ l2
  refine ⟨_, l3, ?_, ?_, ?_⟩
  · simp [pushUpdate]
  · intro u hu
    simp only [pushUpdate, hupd, List.cons_append, List.nil_append, List.mem_cons,
      List.mem_singleton, List.not_mem_nil] at hu
    rcases hu with rfl | rfl | rfl | rfl | h
    · exact Or.inl hust
    · exact Or.inr rfl
    · exact Or.inr rfl
    · exact Or.inr rfl
    · exact absurd h (by simp)
  · refine ⟨⟨.failed, msg2, none,
      tsrc (addDeploymentUpdate tsrc r2 id0 .failed msg1 det).tick⟩, ?_, rfl, rfl⟩
    simp [pushUpdate, hupd]

/-- C7 amended: when a required external binary — the Azure CLI or Terraform —
cannot be launched, the job reaches the terminal `failed` status while still at
`initializing`: every update is `initializing` or `failed`, so no `preparing`
(or later) stage is ever entered and no state-mutating action is taken, and
some `failed` update's message names the missing tool (`Azure CLI` when `az` is
absent, `Terraform` when `terraform` is absent after the `az` probe passed). -/
theorem missing_tool_fails_before_preparing (tsrc : Nat → Nat) (r : Registry)
    (analysis : AnalysisResult) (env : DeployEnv) (jobId : String) (rf : Registry)
    (m toolName : String)
    (henv : (env.azVersion.outcome = .launchError m ∧ toolName = "Azure CLI") ∨
      (azOk env = true ∧ env.tfVersion.outcome = .launchError m ∧ toolName = "Terraform"))
    (hrun : runDeployment tsrc r analysis env = .ok (jobId, rf)) :
    ∃ d, getDeploymentStatus rf jobId = some d ∧ d.status = .failed ∧
      (∀ u ∈ d.updates, u.status = .initializing ∨ u.status = .failed) ∧
      ∃ u, u ∈ d.updates ∧ u.status = .failed ∧ includes u.message toolName = true := by
  unfold runDeployment at hrun
  cases hda : deployToAzure tsrc r analysis with
  | error e => rw [hda] at hrun; exact absurd hrun (by simp)
  | ok p =>
    obtain ⟨id0, r2⟩ := p
    obtain ⟨d0, hd0, hstat, hend, u0, hupd, hust⟩ := deployToAzure_ok tsrc r analysis id0 r2 hda
    rw [hda] at hrun
    rcases henv with ⟨haz, htool⟩ | ⟨hazok, htf, htool⟩
    · subst htool
      simp only [deployTerraformRest, checkAzCliInstalled, executeCommand, streamUpdates,
        haz, Except.ok.injEq, Prod.mk.injEq] at hrun
      obtain ⟨hid, hrf⟩ := hrun
      subst hid
      subst hrf
      obtain ⟨d, hd, hds, hall, u, hu, huf, hum⟩ := failed_chain_shape tsrc r2 id0 d0 u0
        ("Command error: " ++ m) ("Deployment failed: " ++ "Azure CLI is not installed")
        (some (cmdOutput env.azVersion)) hd0 hupd hust
      refine ⟨d, hd, hds, hall, u, hu, huf, ?_⟩
      rw [hum]
      decide
    · subst htool
      have hchk1 := checkAz_of_azOk tsrc r2 id0 env hazok
      simp only [deployTerraformRest, hchk1, checkTerraformInstalled, executeCommand,
        streamUpdates, htf, Except.ok.injEq, Prod.mk.injEq] at hrun
      obtain ⟨hid, hrf⟩ := hrun
      subst hid
      subst hrf
      obtain ⟨d, hd, hds, hall, u, hu, huf, hum⟩ := failed_chain_shape tsrc r2 id0 d0 u0
        ("Command error: " ++ m) ("Deployment failed: " ++ "Terraform is not installed")
        (some (cmdOutput env.tfVersion)) hd0 hupd hust
      refine ⟨d, hd, hds, hall, u, hu, huf, ?_⟩
      rw [hum]
      decide

/-- C7 amended witness: one concrete run with the `az` binary absent and one
with `az` present but the `terraform` binary absent. -/
theorem missing_tool_fails_before_preparing_witness :
    (∃ d, getDeploymentStatus
        (sndRegOf (runDeployment tsrcId emptyRegistry wAnalysis envAzMissing))
        "deploy-a1-0" = some d ∧ d.status = .failed ∧
      (∀ u ∈ d.updates, u.status = .initializing ∨ u.status = .failed) ∧
      ∃ u, u ∈ d.updates ∧ u.status = .failed ∧ includes u.message "Azure CLI" = true) ∧
    (∃ d, getDeploymentStatus
        (sndRegOf (runDeployment tsrcId emptyRegistry wAnalysis envTfMissing))
        "deploy-a1-0" = some d ∧ d.status = .failed ∧
      (∀ u ∈ d.updates, u.status = .initializing ∨ u.status = .failed) ∧
      ∃ u, u ∈ d.updates ∧ u.status = .failed ∧ includes u.message "Terraform" = true) :=
  ⟨missing_tool_fails_before_preparing tsrcId emptyRegistry wAnalysis envAzMissing
      "deploy-a1-0" (sndRegOf (runDeployment tsrcId emptyRegistry wAnalysis envAzMissing))
      "spawn az ENOENT" "Azure CLI" (Or.inl ⟨rfl, rfl⟩) rfl,
   missing_tool_fails_before_preparing tsrcId emptyRegistry wAnalysis envTfMissing
      "deploy-a1-0" (sndRegOf (runDeployment tsrcId emptyRegistry wAnalysis envTfMissing))
      "spawn terraform ENOENT" "Terraform" (Or.inr ⟨by decide, rfl, rfl⟩) rfl⟩

/-- C5: when the checks and login succeed but a configuration-file write during
staging fails, the job ends `failed` and its update history never contains a
`planning` or `applying` update. -/
theorem staging_failure_no_plan_apply (tsrc : Nat → Nat) (r : Registry)
    (analysis : AnalysisResult) (env : DeployEnv) (jobId : String) (rf : Registry) (m : String)
    (hAz : azOk env = true) (hTf : tfOk env = true) (hLogin : loginOk env = true)
    (hMk : (if env.dirExists then Except.ok () else env.mkdirRes) = Except.ok ())
    (hWr : writeAll env.writeRes (deployDirOf analysis.repoName)
      (analysis.terraformCode.getD []) = .error m)
    (hrun : runDeployment tsrc r analysis env = .ok (jobId, rf)) :
    ∃ d, getDeploymentStatus rf jobId = some d ∧ d.status = .failed ∧
      ∀ u ∈ d.updates, u.status ≠ Status.planning ∧ u.status ≠ Status.applying := by
  unfold runDeployment at hrun
  cases hda : deployToAzure tsrc r analysis with
  | error e => rw [hda] at hrun; exact absurd hrun (by simp)
  | ok p =>
    obtain ⟨id0, r2⟩ := p
    rw [hda] at hrun
    obtain ⟨d0, hd0, hstat, hend, u0, hupd, hust⟩ := deployToAzure_ok tsrc r analysis id0 r2 hda
    have hbase : someNoPA r2 id0 := ⟨d0, hd0, by
      intro u hu
      rw [hupd] at hu
      simp only [List.mem_singleton] at hu
      subst hu
      rw [hust]
      exact ⟨by decide, by decide⟩⟩
    have hchk1 := checkAz_of_azOk tsrc r2 id0 env hAz
    have hchk2 := checkTf_of_tfOk tsrc r2 id0 env hTf
    obtain ⟨rL, hlog, hLP⟩ := login_noPA tsrc r2 id0 id0 env hLogin hbase
    have hrest : deployTerraformRest tsrc r2 id0 analysis env =
        (addDeploymentUpdate tsrc rL id0 .preparing
          ("Preparing deployment directory: " ++ deployDirOf analysis.repoName) none,
         .error m) := by
      unfold deployTerraformRest
      simp only [hchk1, hchk2, hlog, hMk, hWr]
    simp only [hrest, Except.ok.injEq, Prod.mk.injEq] at hrun
    obtain ⟨hid, hrf⟩ := hrun
    subst hid
    subst hrf
    have hPrep : someNoPA (addDeploymentUpdate tsrc rL id0 .preparing
        ("Preparing deployment directory: " ++ deployDirOf analysis.repoName) none) id0 :=
      addU_noPA tsrc rL id0 id0 .preparing _ none (by decide) (by decide) hLP
    obtain ⟨dP, hdP, hnoPA⟩ := hPrep
    have l1 := addU_lookup_self tsrc _ id0 .failed ("Deployment failed: " ++ m) none dP hdP
    have l2 := addU_lookup_self tsrc _ id0 .failed ("Deployment failed: " ++ m) none _ l1
    refine ⟨_, l2, by simp [pushUpdate], ?_⟩
    exact noPlanApply_push .failed _ none _ _ (by decide) (by decide)
      (noPlanApply_push .failed _ none _ _ (by decide) (by decide) hnoPA)

/-- C5 witness: concrete run in which every staged file write fails. -/
theorem staging_failure_no_plan_apply_witness :
    ∃ d, getDeploymentStatus (sndRegOf (runDeployment tsrcId emptyRegistry wAnalysis envWriteFail))
        "deploy-a1-0" = some d ∧ d.status = .failed ∧
      ∀ u ∈ d.updates, u.status ≠ Status.planning ∧ u.status ≠ Status.applying :=
  staging_failure_no_plan_apply tsrcId emptyRegistry wAnalysis envWriteFail "deploy-a1-0"
    (sndRegOf (runDeployment tsrcId emptyRegistry wAnalysis envWriteFail))
    "ENOSPC: no space left on device" rfl rfl rfl rfl rfl rfl

/-- A successful `runTerraformPlan` returns the fresh temporary directory, ran
exactly `terraform init` then `terraform plan` there, and implies the Terraform
binary was present. -/
theorem runPlan_success_shape (env : PlanEnv)
    (h : (runTerraformPlan env).1.success = true) :
    (runTerraformPlan env).1.terraformDir = some env.tmpDirName ∧
    (runTerraformPlan env).2 =
      [TfEvent.initRun env.tmpDirName, TfEvent.planRun env.tmpDirName] ∧
    env.terraformInstalled = true := by
  unfold runTerraformPlan at h ⊢
  cases ha : env.analysis with
  | none => simp [ha, failPlan] at h
  | some analysis =>
    simp only [ha] at h ⊢
    cases htc : analysis.terraformCode with
    | none => simp [htc, failPlan] at h
    | some files =>
      simp only [htc] at h ⊢
      cases hw1 : writeAll env.writeFileRes env.tmpDirName files with
      | error m => simp [hw1, failPlan] at h
      | ok u1 =>
        simp only [hw1] at h ⊢
        cases hw2 : env.writeFileRes (pathJoin env.tmpDirName "providers.tf") with
        | error m => simp [hw2, failPlan] at h
        | ok u2 =>
          simp only [hw2] at h ⊢
          cases hrv : env.readVariablesRes with
          | error m => simp [hrv, failPlan] at h
          | ok v =>
            simp only [hrv] at h ⊢
            cases hw3 : env.writeFileRes (pathJoin env.tmpDirName "variables.tf") with
            | error m => simp [hw3, failPlan] at h
            | ok u3 =>
              simp only [hw3] at h ⊢
              cases hw4 : env.writeFileRes (pathJoin env.tmpDirName "terraform.tfvars") with
              | error m => simp [hw4, failPlan] at h
              | ok u4 =>
                simp only [hw4] at h ⊢
                cases hinst : env.terraformInstalled with
                | false => simp [tfWrapperInit, hinst, failPlan] at h
                | true =>
                  simp only [tfWrapperInit, tfWrapperPlan, hinst, Bool.not_true] at h ⊢
                  cases hie : env.initExec with
                  | error m => simp [hie, failPlan] at h
                  | ok io =>
                    simp only [hie] at h ⊢
                    cases hpl : env.planExec with
                    | error m => simp [hpl, failPlan] at h
                    | ok po =>
                      simp only [hpl] at h ⊢
                      exact ⟨rfl, rfl, trivial⟩

/-- `runTerraformPlan` never invokes `terraform apply`. -/
theorem runPlan_no_apply (env : PlanEnv) (d : String) :
    TfEvent.applyRun d ∉ (runTerraformPlan env).2 := by
  unfold runTerraformPlan
  cases ha : env.analysis with
  | none => simp
  | some analysis =>
    simp only [ha]
    cases htc : analysis.terraformCode with
    | none => simp
    | some files =>
      simp only [htc]
      cases hw1 : writeAll env.writeFileRes env.tmpDirName files with
      | error m => simp
      | ok u1 =>
        simp only [hw1]
        cases hw2 : env.writeFileRes (pathJoin env.tmpDirName "providers.tf") with
        | error m => simp
        | ok u2 =>
          simp only [hw2]
          cases hrv : env.readVariablesRes with
          | error m => simp
          | ok v =>
            simp only [hrv]
            cases hw3 : env.writeFileRes (pathJoin env.tmpDirName "variables.tf") with
            | error m => simp
            | ok u3 =>
              simp only [hw3]
              cases hw4 : env.writeFileRes (pathJoin env.tmpDirName "terraform.tfvars") with
              | error m => simp
              | ok u4 =>
                simp only [hw4]
                cases hinst : env.terraformInstalled with
                | false => simp [tfWrapperInit, hinst]
                | true =>
                  simp only [tfWrapperInit, tfWrapperPlan, hinst, Bool.not_true]
                  cases hie : env.initExec with
                  | error m => simp
                  | ok io =>
                    simp only [hie]
                    cases hpl : env.planExec with
                    | error m => simp
                    | ok po => simp

/-- C4: even when no plan artifact exists for the job's directory,
`applyTerraformPlan` never fails with a missing-plan error: whenever
`terraform apply` runs in a directory, that directory is the fresh one in which
the full planning stage (`terraform init` then `terraform plan`) just succeeded
and immediately preceded it; conversely, a successful planning stage always
proceeds to apply. -/
theorem apply_always_replans (env : PlanEnv) (hna : env.planArtifactExists = false) :
    (∀ d, TfEvent.applyRun d ∈ (applyTerraformPlan env).2 →
      (runTerraformPlan env).1.success = true ∧
      (runTerraformPlan env).1.terraformDir = some d ∧
      ∃ post, (applyTerraformPlan env).2 =
        TfEvent.initRun d :: TfEvent.planRun d :: TfEvent.applyRun d :: post) ∧
    ((runTerraformPlan env).1.success = true →
      TfEvent.applyRun env.tmpDirName ∈ (applyTerraformPlan env).2) := by
  rcases hpe : runTerraformPlan env with ⟨pr, evs⟩
  by_cases hs : pr.success = true
  · have hshape := runPlan_success_shape env (by rw [hpe]; exact hs)
    rw [hpe] at hshape
    have hdir : pr.terraformDir = some env.tmpDirName := by simpa using hshape.1
    have hevs : evs = [TfEvent.initRun env.tmpDirName, TfEvent.planRun env.tmpDirName] := by
      simpa using hshape.2.1
    have hinst : env.terraformInstalled = true := hshape.2.2
    have hev : (applyTerraformPlan env).2 =
        evs ++ [TfEvent.applyRun env.tmpDirName] ++ [TfEvent.outputRun env.tmpDirName] ∨
        (applyTerraformPlan env).2 = evs ++ [TfEvent.applyRun env.tmpDirName] := by
      unfold applyTerraformPlan
      cases hae : env.applyExec with
      | error m =>
        right
        simp [hpe, hs, hdir, tfWrapperApply, tfWrapperOutput, hinst, hae]
      | ok a =>
        cases hoe : env.outputExec with
        | error m =>
          left
          simp [hpe, hs, hdir, tfWrapperApply, tfWrapperOutput, hinst, hae, hoe]
        | ok o =>
          cases hjp : env.jsonParse (if o = "" then "\x7b\x7d" else o) with
          | error m =>
            left
            simp [hpe, hs, hdir, tfWrapperApply, tfWrapperOutput, hinst, hae, hoe, hjp]
          | ok kvs =>
            left
            cases hjo : jsOrStr (kvs.lookup "app_service_url") (kvs.lookup "webapp_url") with
            | none =>
              simp [hpe, hs, hdir, tfWrapperApply, tfWrapperOutput, hinst, hae, hoe, hjp, hjo]
            | some appUrl =>
              simp [hpe, hs, hdir, tfWrapperApply, tfWrapperOutput, hinst, hae, hoe, hjp, hjo]
    constructor
    · intro d hd
      rcases hev with hev | hev <;>
        rw [hev, hevs] at hd <;>
        simp only [List.cons_append, List.nil_append, List.mem_cons, List.mem_singleton,
          List.not_mem_nil, or_false, TfEvent.applyRun.injEq] at hd
      · rcases hd with h1 | h1 | h1 | h1
        · exact absurd h1 (by simp)
        · exact absurd h1 (by simp)
        · subst h1
          exact ⟨hs, hdir, [TfEvent.outputRun env.tmpDirName], by rw [hev, hevs]; rfl⟩
        · exact absurd h1 (by simp)
      · rcases hd with h1 | h1 | h1
        · exact absurd h1 (by simp)
        · exact absurd h1 (by simp)
        · subst h1
          exact ⟨hs, hdir, [], by rw [hev, hevs]; rfl⟩
    · intro _
      rcases hev with hev | hev <;> rw [hev] <;> simp
  · constructor
    · intro d hd
      have hsf : pr.success = false := by
        cases hb : pr.success with
        | false => rfl
        | true => exact absurd hb hs
      have hev : (applyTerraformPlan env).2 = evs := by
        unfold applyTerraformPlan
        simp [hpe, hsf]
      rw [hev] at hd
      have := runPlan_no_apply env d
      rw [hpe] at this
      exact absurd hd this
    · intro hsucc
      exact absurd hsucc hs

/-- Plan/apply environment in which staging, init, plan and apply all succeed,
no plan artifact pre-exists, and the output query returns unparseable text. -/
def cexPlanEnv : PlanEnv :=
  { planArtifactExists := false
    analysis := some ⟨"https://github.com/owner/repo", some [⟨"main.tf", "x"⟩]⟩
    tmpDirName := "/tmp/terraform-abc123"
    writeFileRes := fun _ => .ok ()
    readVariablesRes := .ok "vars"
    terraformInstalled := true
    initExec := .ok "init done"
    planExec := .ok "plan done"
    applyExec := .ok "applied"
    outputExec := .ok "not json"
    jsonParse := fun _ => .error "Unexpected token" }

/-- C4 witness: a concrete apply call with no pre-existing plan artifact. -/
theorem apply_always_replans_witness :
    (runTerraformPlan cexPlanEnv).1.success = true ∧
    TfEvent.applyRun "/tmp/terraform-abc123" ∈ (applyTerraformPlan cexPlanEnv).2 ∧
    (runTerraformPlan cexPlanEnv).1.terraformDir = some "/tmp/terraform-abc123" := by
  have h := apply_always_replans cexPlanEnv rfl
  have hs : (runTerraformPlan cexPlanEnv).1.success = true := by decide
  have hmem := h.2 hs
  exact ⟨hs, hmem, (h.1 _ hmem).2.1⟩

/-- C6 counterexample: when the apply succeeds but the output text cannot be
parsed, the returned record carries `success = true` with the `outputs` field
absent (`none`), not an empty map — refuting "an empty map, not an
absent/missing field". -/
theorem parse_failure_outputs_absent_counterexample :
    (applyTerraformPlan cexPlanEnv).1.success = true ∧
    (applyTerraformPlan cexPlanEnv).1.outputs = none ∧
    (applyTerraformPlan cexPlanEnv).1.outputs ≠ some [] := by
  refine ⟨by decide, by decide, by decide⟩

/-- C6 amended: if planning and apply succeed but the outputs JSON cannot be
parsed, `applyTerraformPlan` still returns `success = true`, with the `outputs`
field absent (`none`) and a warning line in the logs. -/
theorem parse_failure_outputs_absent (env : PlanEnv) (aout oout m : String)
    (hplan : (runTerraformPlan env).1.success = true)
    (hap : env.applyExec = .ok aout)
    (hout : env.outputExec = .ok oout)
    (hjp : env.jsonParse (if oout = "" then "\x7b\x7d" else oout) = .error m) :
    (applyTerraformPlan env).1.success = true ∧
    (applyTerraformPlan env).1.outputs = none ∧
    ("Warning: Unable to parse Terraform outputs: " ++ m) ∈ (applyTerraformPlan env).1.logs := by
  have hshape := runPlan_success_shape env hplan
  obtain ⟨hdir, hevs, hinst⟩ := hshape
  rcases hpe : runTerraformPlan env with ⟨pr, evs⟩
  rw [hpe] at hplan hdir
  have hplan2 : pr.success = true := by simpa using hplan
  have hdir2 : pr.terraformDir = some env.tmpDirName := by simpa using hdir
  unfold applyTerraformPlan
  simp [hpe, hplan2, hdir2, tfWrapperApply, tfWrapperOutput, hinst, hap, hout, hjp]

/-- C6 amended witness: the concrete unparseable-output run. -/
theorem parse_failure_outputs_absent_witness :
    (applyTerraformPlan cexPlanEnv).1.success = true ∧
    (applyTerraformPlan cexPlanEnv).1.outputs = none ∧
    ("Warning: Unable to parse Terraform outputs: " ++ "Unexpected token") ∈
      (applyTerraformPlan cexPlanEnv).1.logs :=
  parse_failure_outputs_absent cexPlanEnv "applied" "not json" "Unexpected token"
    (by decide) rfl rfl rfl

/-- All four credential environment variables are present (truthy). -/
def credsPresent (env : AuthEnv) : Bool :=
  envPresent env.tenantId && envPresent env.clientId && envPresent env.clientSecret &&
    envPresent env.subscriptionId

/-- Success test for a modelled SDK call. -/
def exOk : Except String Unit → Bool
  | .ok _ => true
  | .error _ => false

/-- The outer catch makes the credential gate always resolve to its structured
result. -/
theorem authTop_eq (env : AuthEnv) :
    authenticateWithAzureTop env = .ok (authenticateWithAzure env) := by
  unfold authenticateWithAzureTop authenticateWithAzure
  rcases h : authenticateWithAzureTry env with ⟨logs, res⟩
  cases res <;> rfl

/-- C8: the credential gate never throws — it always resolves to a structured
result — and `success` is true exactly when the credentials are present and
every SDK step up to client construction succeeds; each failure mode leaves a
matching diagnostic line in the accumulated logs. -/
theorem auth_never_throws (env : AuthEnv) :
    (∃ res, authenticateWithAzureTop env = .ok res) ∧
    ((authenticateWithAzure env).success =
      (credsPresent env && exOk env.credentialCtor && exOk env.getToken &&
        exOk env.resourceClientCtor)) ∧
    (credsPresent env = false →
      "Missing required Azure credentials. Environment variables not set correctly." ∈
        (authenticateWithAzure env).logs) ∧
    (∀ m, credsPresent env = true → env.credentialCtor = .ok () → env.getToken = .error m →
      ("Authentication failed: " ++ m) ∈ (authenticateWithAzure env).logs) ∧
    (∀ m, credsPresent env = true → env.credentialCtor = .error m →
      ("Azure SDK initialization error: " ++ errMsg m) ∈ (authenticateWithAzure env).logs) := by
  refine ⟨⟨authenticateWithAzure env, authTop_eq env⟩, ?_⟩
  have hcond : (!(envPresent env.tenantId) || !(envPresent env.clientId) ||
      !(envPresent env.clientSecret) || !(envPresent env.subscriptionId)) =
      !(credsPresent env) := by
    cases h1 : envPresent env.tenantId <;> cases h2 : envPresent env.clientId <;>
      cases h3 : envPresent env.clientSecret <;> cases h4 : envPresent env.subscriptionId <;>
        simp [credsPresent, h1, h2, h3, h4]
  cases hcp : credsPresent env with
  | false =>
    refine ⟨?_, ?_, ?_, ?_⟩ <;>
      simp [authenticateWithAzure, authenticateWithAzureTry, hcond, hcp, exOk]
  | true =>
    cases hcc : env.credentialCtor with
    | error mc =>
      refine ⟨?_, ?_, ?_, ?_⟩ <;>
        simp [authenticateWithAzure, authenticateWithAzureTry, hcond, hcp, hcc, exOk]
    | ok uc =>
      cases hgt : env.getToken with
      | error mt =>
        refine ⟨?_, ?_, ?_, ?_⟩ <;>
          simp [authenticateWithAzure, authenticateWithAzureTry, hcond, hcp, hcc, hgt, exOk]
      | ok ut =>
        cases hrc : env.resourceClientCtor with
        | error mr =>
          refine ⟨?_, ?_, ?_, ?_⟩ <;>
            simp [authenticateWithAzure, authenticateWithAzureTry, hcond, hcp, hcc, hgt, hrc,
              exOk]
        | ok ur =>
          cases hrl : env.resourcesList with
          | error ml =>
            refine ⟨?_, ?_, ?_, ?_⟩ <;>
              simp [authenticateWithAzure, authenticateWithAzureTry, hcond, hcp, hcc, hgt, hrc,
                hrl, exOk]
          | ok ul =>
            refine ⟨?_, ?_, ?_, ?_⟩ <;>
              simp [authenticateWithAzure, authenticateWithAzureTry, hcond, hcp, hcc, hgt, hrc,
                hrl, exOk]

/-- C8 witness: a concrete environment with all credential variables present
but an invalid secret, so the token request fails. -/
theorem auth_never_throws_witness :
    (∃ res, authenticateWithAzureTop
      ⟨some "t1", some "c1", some "s3cr3t", some "sub1", .ok (), .error "invalid client secret",
        .ok (), .ok ()⟩ = .ok res) ∧
    ((authenticateWithAzure
      ⟨some "t1", some "c1", some "s3cr3t", some "sub1", .ok (), .error "invalid client secret",
        .ok (), .ok ()⟩).success = false) ∧
    (("Authentication failed: " ++ "invalid client secret") ∈
      (authenticateWithAzure
        ⟨some "t1", some "c1", some "s3cr3t", some "sub1", .ok (), .error "invalid client secret",
          .ok (), .ok ()⟩).logs) := by
  have h := auth_never_throws
    ⟨some "t1", some "c1", some "s3cr3t", some "sub1", .ok (), .error "invalid client secret",
      .ok (), .ok ()⟩
  refine ⟨h.1, ?_, h.2.2.2.1 "invalid client secret" (by decide) rfl rfl⟩
  rw [h.2.1]
  decide

end AutoCloud
